import Mathlib

/-!
Verification of the starry-signal crate: a POSIX-style signal delivery
subsystem.  We shallowly embed the Rust code in Lean:

* `Old` namespace: the core found in `src/lib.rs` and `src/ctypes.rs`
  (`SignalSet` over `bits: [u32; 2]`, `PendingSignals` with
  `send_signal` / `dequeue_signal`).
* `Api` namespace: the manager layer of `src/api/process.rs` and
  `src/api/thread.rs` together with the arch layer of
  `src/ucontext/riscv.rs`.  The primitives those files use (`Signo`,
  the 64-signal `SignalSet`, `PendingSignals::put_signal`, ...) are not
  part of the sources; they are modelled from the specification (and
  pinned down by the crate's own tests), as marked in their doc
  comments.

Machine integers are embedded as `Nat` with explicit 32/64-bit masking
where the Rust code relies on fixed width.
-/

namespace StarrySignal

/-- Fuel-bounded trailing-zero count: halve until the low bit is set.
For a positive `n` the count is below `n`, so `n` itself is enough
fuel. -/
def tzGo (fuel n : Nat) : Nat :=
  match fuel with
  | 0 => 0
  | fuel + 1 => if n % 2 = 1 then 0 else tzGo fuel (n / 2) + 1

/-- Number of trailing zero bits of a natural number (0 for 0); mirrors
`u32::trailing_zeros` on the nonzero values it is applied to. -/
def trailingZeros (n : Nat) : Nat := tzGo n n

namespace Old

/-- Rust `SignalSet` from `src/ctypes.rs`: two 32-bit words.  All operations
touch `bits[0]` only (the code supports just the standard signals
1..31; real-time support is a `TODO` in the source). -/
structure SignalSet where
  bits0 : Nat
  bits1 : Nat
deriving DecidableEq

instance : Inhabited SignalSet := ⟨⟨0, 0⟩⟩

/-- Rust `SignalSet::default()`. -/
def SignalSet.empty : SignalSet := ⟨0, 0⟩

/-- Rust `SignalSet::add`: rejects signals outside `1..32`, returns `false`
if the bit is already set, otherwise sets it and returns `true`. -/
def SignalSet.add (s : SignalSet) (signal : Nat) : SignalSet × Bool :=
  if signal < 1 ∨ 32 ≤ signal then (s, false)
  else
    let bit := 1 <<< (signal - 1)
    if s.bits0 &&& bit ≠ 0 then (s, false)
    else ({ s with bits0 := s.bits0 ||| bit }, true)

/-- Rust `SignalSet::has`. -/
def SignalSet.has (s : SignalSet) (signal : Nat) : Bool :=
  decide (1 ≤ signal) && decide (signal < 32)
    && (s.bits0 &&& (1 <<< (signal - 1)) != 0)

/-- Rust `SignalSet::dequeue`: clear and return the smallest signal present
in both `self.bits[0]` and `mask.bits[0]`.  `self.bits[0] &= !(1 << signal)`
is rendered as 32-bit masked complement. -/
def SignalSet.dequeue (s : SignalSet) (mask : SignalSet) : SignalSet × Option Nat :=
  let bits := s.bits0 &&& mask.bits0
  if bits = 0 then (s, none)
  else
    let signal := trailingZeros bits
    ({ s with bits0 := s.bits0 &&& (0xFFFFFFFF ^^^ (1 <<< signal)) }, some (signal + 1))

/-- Rust `SignalInfo` from `src/ctypes.rs`: a signal number and a code. -/
structure SignalInfo where
  signo : Nat
  code : Nat
deriving DecidableEq

/-- Rust `PendingSignals` from `src/lib.rs`.  The `infos` array (standard
signals) and `info_queues` array (real-time signals, index `signo - 32`)
are embedded as total functions. -/
structure PendingSignals where
  pending : SignalSet
  infos : Nat → Option SignalInfo
  infoQueues : Nat → List SignalInfo

/-- Rust `PendingSignals::new()`. -/
def PendingSignals.empty : PendingSignals :=
  { pending := SignalSet.empty, infos := fun _ => none, infoQueues := fun _ => [] }

/-- Rust `PendingSignals::send_signal` from `src/lib.rs` lines 144-158. -/
def PendingSignals.sendSignal (ps : PendingSignals) (sig : SignalInfo) :
    PendingSignals × Bool :=
  let signo := sig.signo
  let r := ps.pending.add signo
  let ps := { ps with pending := r.1 }
  if signo < 32 then
    if r.2 = false then (ps, false)
    else ({ ps with infos := fun i => if i = signo then some sig else ps.infos i }, true)
  else
    ({ ps with
        infoQueues := fun i =>
          if i = signo - 32 then ps.infoQueues i ++ [sig] else ps.infoQueues i },
      true)

/-- Rust `PendingSignals::dequeue_signal` from `src/lib.rs` lines 161-174. -/
def PendingSignals.dequeueSignal (ps : PendingSignals) (mask : SignalSet) :
    PendingSignals × Option SignalInfo :=
  match ps.pending.dequeue mask with
  | (pending', none) => ({ ps with pending := pending' }, none)
  | (pending', some signo) =>
    let ps := { ps with pending := pending' }
    if signo < 32 then
      ({ ps with infos := fun i => if i = signo then none else ps.infos i },
        ps.infos signo)
    else
      let queue := ps.infoQueues (signo - 32)
      match queue with
      | [] => (ps, none)
      | info :: rest =>
        let ps := { ps with
          infoQueues := fun i => if i = signo - 32 then rest else ps.infoQueues i }
        if rest.isEmpty then (ps, some info)
        else ({ ps with pending := (ps.pending.add signo).1 }, some info)

/-- The all-ones mask (`!SignalSet::default()`). -/
def SignalSet.full : SignalSet := ⟨0xFFFFFFFF, 0xFFFFFFFF⟩

end Old

namespace Api

/-- Modelled from the spec: the per-signal default action
(§3 "compile-time default action"); the table for signals 0..31 is
`DEFAULT_ACTIONS` in `src/lib.rs`. -/
inductive DefaultSignalAction where
  | terminate
  | ignore
  | coreDump
  | stop
  | cont
deriving DecidableEq

/-- Rust `DEFAULT_ACTIONS` from `src/lib.rs` lines 36-101, extended to
real-time signals.  Modelled from the spec: the spec fixes no default
for real-time signos; Terminate (the POSIX choice) is used, which no
claim depends on. -/
def defaultAction (signo : Nat) : DefaultSignalAction :=
  if signo = 0 then .ignore
  else if signo = 3 ∨ signo = 4 ∨ signo = 5 ∨ signo = 6 ∨ signo = 7 ∨ signo = 8
      ∨ signo = 11 ∨ signo = 24 ∨ signo = 25 ∨ signo = 31 then .coreDump
  else if signo = 17 ∨ signo = 23 ∨ signo = 28 then .ignore
  else if signo = 18 then .cont
  else if signo = 19 ∨ signo = 20 ∨ signo = 21 ∨ signo = 22 then .stop
  else .terminate

/-- Modelled from the spec: `Signo::has_side_effect`, true for the
signals whose effect must occur regardless of disposition (SIGKILL = 9,
SIGCONT = 18; glossary "Has-side-effect"). -/
def hasSideEffect (signo : Nat) : Bool :=
  signo == 9 || signo == 18

/-- Modelled from the spec: the 64-signal `SignalSet` used by the
`api` layer (§3; pinned by `tests/types.rs::signalset_bounds`, which
adds and removes `SIGRT32` = 64).  One bit per signo 1..64. -/
structure Sig64 where
  bits : Nat
deriving DecidableEq

def Sig64.empty : Sig64 := ⟨0⟩

/-- Modelled from the spec: `SignalSet::add` over signos 1..64. -/
def Sig64.add (s : Sig64) (signo : Nat) : Sig64 × Bool :=
  if signo < 1 ∨ 64 < signo then (s, false)
  else
    let bit := 1 <<< (signo - 1)
    if s.bits &&& bit ≠ 0 then (s, false)
    else ({ bits := s.bits ||| bit }, true)

/-- Modelled from the spec: `SignalSet::has` over signos 1..64. -/
def Sig64.has (s : Sig64) (signo : Nat) : Bool :=
  decide (1 ≤ signo) && decide (signo ≤ 64)
    && (s.bits &&& (1 <<< (signo - 1)) != 0)

/-- Modelled from the spec: `SignalSet::is_empty`. -/
def Sig64.isEmpty (s : Sig64) : Bool :=
  s.bits == 0

/-- Modelled from the spec: union of two signal sets (`BitOr`). -/
def Sig64.union (s t : Sig64) : Sig64 :=
  ⟨s.bits ||| t.bits⟩

/-- Modelled from the spec: 64-bit complement of a signal set (`Not`). -/
def Sig64.compl (s : Sig64) : Sig64 :=
  ⟨0xFFFFFFFFFFFFFFFF ^^^ (s.bits &&& 0xFFFFFFFFFFFFFFFF)⟩

/-- Modelled from the spec: `SignalSet::dequeue` — clear and return the
smallest signo present in both the set and the mask (§3
"dequeue-smallest-in-mask"). -/
def Sig64.dequeue (s : Sig64) (mask : Sig64) : Sig64 × Option Nat :=
  let bits := s.bits &&& mask.bits
  if bits = 0 then (s, none)
  else
    let signo := trailingZeros bits
    ({ bits := s.bits &&& (0xFFFFFFFFFFFFFFFF ^^^ (1 <<< signo)) }, some (signo + 1))

/-- Rust `SignalInfo` of the `api` layer, reduced to the fields the claims
touch (signo and code); the remaining `siginfo_t` payload is inert for
the verified operations. -/
structure SigInfo where
  signo : Nat
  code : Nat
deriving DecidableEq

/-- Modelled from the spec: the `api`-layer `PendingSignals`
(§3 / §4.1): pending set, one info slot per standard signo, one FIFO
per real-time signo (indexed by `signo - 32`). -/
structure Pending where
  set : Sig64
  infos : Nat → Option SigInfo
  queues : Nat → List SigInfo

def Pending.empty : Pending :=
  { set := Sig64.empty, infos := fun _ => none, queues := fun _ => [] }

/-- Modelled from the spec: `PendingSignals::put_signal` (§4.1; return
values pinned by `tests/pending.rs`: a duplicate standard put is a
no-op returning `false`, every real-time put enqueues and returns
`true`). -/
def Pending.putSignal (ps : Pending) (sig : SigInfo) : Pending × Bool :=
  let signo := sig.signo
  if signo < 32 then
    if ps.set.has signo then (ps, false)
    else
      ({ set := (ps.set.add signo).1,
         infos := fun i => if i = signo then some sig else ps.infos i,
         queues := ps.queues }, true)
  else
    ({ set := (ps.set.add signo).1,
       infos := ps.infos,
       queues := fun i =>
         if i = signo - 32 then ps.queues i ++ [sig] else ps.queues i }, true)

/-- Modelled from the spec: `PendingSignals::dequeue_signal` (§4.1):
take the smallest eligible signo from the set; standard signos take the
stored info; real-time signos pop the FIFO head and re-set the bit
while the queue stays non-empty. -/
def Pending.dequeueSignal (ps : Pending) (mask : Sig64) :
    Pending × Option SigInfo :=
  match ps.set.dequeue mask with
  | (set', none) => ({ ps with set := set' }, none)
  | (set', some signo) =>
    let ps := { ps with set := set' }
    if signo < 32 then
      ({ ps with infos := fun i => if i = signo then none else ps.infos i },
        ps.infos signo)
    else
      match ps.queues (signo - 32) with
      | [] => (ps, none)
      | info :: rest =>
        let ps := { ps with
          queues := fun i => if i = signo - 32 then rest else ps.queues i }
        if rest.isEmpty then (ps, some info)
        else ({ ps with set := (ps.set.add signo).1 }, some info)

/-- Rust `SignalDisposition` from `src/ctypes.rs` (handler embedded as its
address). -/
inductive SignalDisposition where
  | dfl
  | ign
  | handler (f : Nat)
deriving DecidableEq

/-- The `SignalActionFlags` bit values (`src/ctypes.rs` lines 17-26 for
all but ONSTACK; `SA_ONSTACK` from the external header). -/
def FLAG_SIGINFO : Nat := 0x4
def FLAG_NODEFER : Nat := 0x40000000
def FLAG_RESETHAND : Nat := 0x80000000
def FLAG_RESTART : Nat := 0x10000000
def FLAG_ONSTACK : Nat := 0x08000000
def FLAG_RESTORER : Nat := 0x4000000

/-- Rust `SignalAction` from `src/ctypes.rs`: flags (as a bitmask), handler
mask, disposition and optional restorer address. -/
structure SignalAction where
  flags : Nat
  mask : Sig64
  disposition : SignalDisposition
  restorer : Option Nat
deriving DecidableEq

/-- Rust `SignalAction::default()`. -/
def SignalAction.dflt : SignalAction :=
  { flags := 0, mask := Sig64.empty, disposition := .dfl, restorer := none }

/-- Rust `ProcessSignalManager` state from `src/api/process.rs` lines 52-73.
The weak child registry is a list of `(tid, upgrade result)`: `some
blocked` stands for a live thread (only its blocked mask is consulted),
`none` for a dead weak reference.  `events` is the `AtomicU8` bitflag
word, `lastStopSignal` the `SpinNoIrq<Option<Signo>>` cell. -/
structure ProcState where
  pending : Pending
  actions : Nat → SignalAction
  defaultRestorer : Nat
  children : List (Nat × Option Sig64)
  possiblyHasSignal : Bool
  events : Nat
  lastStopSignal : Option Nat

/-- Rust `ProcessSignalManager::signal_ignored` from `src/api/process.rs`
lines 101-118. -/
def signalIgnored (s : ProcState) (signo : Nat) : Bool :=
  if hasSideEffect signo then false
  else
    match (s.actions signo).disposition with
    | .ign => true
    | .dfl => defaultAction signo == .ignore
    | .handler _ => false

/-- The `children.retain(..)` loop of `send_signal`
(`src/api/process.rs` lines 145-154): walk the registry in order,
dropping dead entries, recording the first live tid whose blocked mask
lacks `signo`. -/
def retainScan : List (Nat × Option Sig64) → Nat → List (Nat × Option Sig64) × Option Nat
  | [], _ => ([], none)
  | (tid, some blocked) :: rest, signo =>
    let r := retainScan rest signo
    ((tid, some blocked) :: r.1,
      if blocked.has signo = false then some tid else r.2)
  | (_, none) :: rest, signo => retainScan rest signo

/-- The first registered live thread id whose blocked mask does not
contain `signo` (the claim's description of the wake target). -/
def firstAwake : List (Nat × Option Sig64) → Nat → Option Nat
  | [], _ => none
  | (tid, some blocked) :: rest, signo =>
    if blocked.has signo = false then some tid else firstAwake rest signo
  | (_, none) :: rest, signo => firstAwake rest signo

/-- Rust `ProcessSignalManager::send_signal` from `src/api/process.rs`
lines 133-156. -/
def procSendSignal (s : ProcState) (sig : SigInfo) : ProcState × Option Nat :=
  if signalIgnored s sig.signo then (s, none)
  else
    let r := s.pending.putSignal sig
    let hint := if r.2 then true else s.possiblyHasSignal
    let scan := retainScan s.children sig.signo
    ({ s with pending := r.1, possiblyHasSignal := hint, children := scan.1 },
      scan.2)

/-- Rust `ProcessSignalManager::dequeue_signal` from `src/api/process.rs`
lines 89-96: dequeue, then clear the hint iff the pending set was
observed empty. -/
def procDequeueSignal (s : ProcState) (mask : Sig64) :
    ProcState × Option SigInfo :=
  let r := s.pending.dequeueSignal mask
  let hint := if r.1.set.isEmpty then false else s.possiblyHasSignal
  ({ s with pending := r.1, possiblyHasSignal := hint }, r.2)

/-- Rust `SignalEventFlags` bit values (`src/api/process.rs` lines 44-50). -/
def PENDING_STOP_EVENT : Nat := 1
def PENDING_CONT_EVENT : Nat := 2

/-- Rust `ProcessSignalManager::set_stop_signal` (`src/api/process.rs`
lines 202-210). -/
def setStopSignal (s : ProcState) (signal : Nat) : ProcState :=
  { s with lastStopSignal := some signal,
           events := s.events ||| PENDING_STOP_EVENT }

/-- Rust `ProcessSignalManager::set_cont_signal` (`src/api/process.rs`
lines 223-231). -/
def setContSignal (s : ProcState) : ProcState :=
  { s with lastStopSignal := none,
           events := s.events ||| PENDING_CONT_EVENT }

/-- Rust `ProcessSignalManager::peek_pending_stop_event`
(`src/api/process.rs` lines 250-258). -/
def peekPendingStopEvent (s : ProcState) : Option Nat :=
  if s.events &&& PENDING_STOP_EVENT ≠ 0 then s.lastStopSignal else none

/-- Rust `ProcessSignalManager::consume_stop_event` (`src/api/process.rs`
lines 271-278); the `fetch_and` masks within the `u8` word. -/
def consumeStopEvent (s : ProcState) : ProcState :=
  { s with lastStopSignal := none,
           events := s.events &&& (0xFF ^^^ PENDING_STOP_EVENT) }

end Api

/-- The riscv general-purpose register file of the collaborator
`TrapFrame` (axcpu), reduced to the registers the code reads or
writes (`ra`, `sp`, `a0`..`a2`); `rest` stands for all the remaining
GPRs, which are only ever copied wholesale. -/
structure Regs where
  ra : Nat
  sp : Nat
  a0 : Nat
  a1 : Nat
  a2 : Nat
  rest : Nat
deriving DecidableEq

/-- The riscv collaborator `TrapFrame`: the GPRs, `sepc` (the
instruction pointer) and `sstatus`, which stands for every non-GPR
trap-frame field. -/
structure TrapFrame where
  regs : Regs
  sepc : Nat
  sstatus : Nat
deriving DecidableEq

/-- Rust `SignalStack` from `src/ucontext/riscv.rs` lines 6-22. -/
structure SignalStack where
  sp : Nat
  flags : Nat
  size : Nat
deriving DecidableEq

/-- Rust `SS_DISABLE` from the external header. -/
def SS_DISABLE : Nat := 2

/-- Rust `SignalStack::default()`: disabled stack. -/
def SignalStack.dflt : SignalStack :=
  { sp := 0, flags := SS_DISABLE, size := 0 }

/-- Modelled from the spec: `SignalStack::disabled()` (not present in
the sources; §3 "alternate handler stack: sp/size/disabled"): the
`SS_DISABLE` flag bit is set. -/
def SignalStack.disabled (s : SignalStack) : Bool :=
  s.flags &&& SS_DISABLE ≠ 0

/-- Rust `MContext` from `src/ucontext/riscv.rs` lines 24-30. -/
structure MContext where
  pc : Nat
  regs : Regs
  fpstate : List Nat
deriving DecidableEq

/-- Rust `MContext::new` (`src/ucontext/riscv.rs` lines 33-39). -/
def MContext.new (tf : TrapFrame) : MContext :=
  { pc := tf.sepc, regs := tf.regs, fpstate := List.replicate 66 0 }

/-- Rust `MContext::restore` (`src/ucontext/riscv.rs` lines 41-44): write
back `sepc` and the GPRs, touching nothing else. -/
def MContext.restore (m : MContext) (tf : TrapFrame) : TrapFrame :=
  { tf with sepc := m.pc, regs := m.regs }

/-- Rust `UContext` from `src/ucontext/riscv.rs` lines 47-56 (the inert
`__unused` padding is dropped). -/
structure UContext where
  flags : Nat
  link : Nat
  stack : SignalStack
  sigmask : Api.Sig64
  mcontext : MContext
deriving DecidableEq

/-- Rust `UContext::new` (`src/ucontext/riscv.rs` lines 58-68). -/
def UContext.new (tf : TrapFrame) (sigmask : Api.Sig64) : UContext :=
  { flags := 0, link := 0, stack := SignalStack.dflt, sigmask := sigmask,
    mcontext := MContext.new tf }

namespace Api

/-- Rust `SignalFrame` from `src/api/thread.rs` lines 19-23. -/
structure SignalFrame where
  ucontext : UContext
  siginfo : SigInfo
  tf : TrapFrame
deriving DecidableEq

/-- User memory as seen through the `starry_vm` collaborator:
which addresses accept a `SignalFrame` write, and which frames are
stored where. -/
structure Mem where
  writable : Nat → Bool
  frames : Nat → Option SignalFrame

/-- Rust `Layout::new::<SignalFrame>().size()`: architecture-determined;
the theorems do not depend on the value. -/
def signalFrameSize : Nat := 1000

/-- Rust `Layout::new::<SignalFrame>().align()`: architecture-determined
power of two; the theorems do not depend on the value. -/
def signalFrameAlign : Nat := 16

/-- Rust `offset_of!(SignalFrame, siginfo)`; value irrelevant. -/
def frameOffsetSiginfo : Nat := 808

/-- Rust `offset_of!(SignalFrame, ucontext)`: `ucontext` is the first
field. -/
def frameOffsetUcontext : Nat := 0

/-- Rust `x & !(a - 1)` for a power of two `a`. -/
def alignDown (x a : Nat) : Nat := x - x % a

/-- The stack-pointer selection and alignment of
`ThreadSignalManager::handle_signal` (`src/api/thread.rs` lines
99-107). -/
def alignedSpOf (stack : SignalStack) (action : SignalAction) (tf : TrapFrame) : Nat :=
  let sp := if stack.disabled || action.flags &&& FLAG_ONSTACK == 0
    then tf.regs.sp else stack.sp
  alignDown (sp - signalFrameSize) signalFrameAlign

/-- Rust `ThreadSignalManager` state from `src/api/thread.rs` lines 26-38,
with its process manager inlined. -/
structure ThreadState where
  proc : ProcState
  pending : Pending
  blocked : Sig64
  stack : SignalStack
  possiblyHasSignal : Bool

/-- Rust `ThreadSignalManager::dequeue_signal` from `src/api/thread.rs`
lines 57-73: try the thread store; on miss clear the thread hint and
fall through to the process store; if that also misses, clear the
process hint. -/
def threadDequeue (ts : ThreadState) (mask : Sig64) :
    ThreadState × Option SigInfo :=
  match ts.pending.dequeueSignal mask with
  | (p', some sig) => ({ ts with pending := p' }, some sig)
  | (p', none) =>
    let ts := { ts with pending := p', possiblyHasSignal := false }
    match procDequeueSignal ts.proc mask with
    | (pr', some sig) => ({ ts with proc := pr' }, some sig)
    | (pr', none) =>
      ({ ts with proc := { pr' with possiblyHasSignal := false } }, none)

/-- Rust `SignalOSAction` from the `api` layer (`Handler` carries no
payload there). -/
inductive OSAction where
  | terminate
  | coreDump
  | stop
  | cont
  | handler
deriving DecidableEq

/-- Result bundle of `handle_signal`: thread state, trap frame, user
memory and the OS action. -/
structure HandleResult where
  ts : ThreadState
  tf : TrapFrame
  mem : Mem
  action : Option OSAction

/-- Rust `ThreadSignalManager::handle_signal` from `src/api/thread.rs`
lines 79-148. -/
def handleSignal (ts : ThreadState) (tf : TrapFrame) (mem : Mem)
    (restoreBlocked : Sig64) (sig : SigInfo) (action : SignalAction) :
    HandleResult :=
  match action.disposition with
  | .dfl =>
    { ts := ts, tf := tf, mem := mem,
      action :=
        match defaultAction sig.signo with
        | .terminate => some .terminate
        | .coreDump => some .coreDump
        | .stop => some .stop
        | .ignore => none
        | .cont => some .cont }
  | .ign => { ts := ts, tf := tf, mem := mem, action := none }
  | .handler h =>
    let alignedSp := alignedSpOf ts.stack action tf
    if mem.writable alignedSp = false then
      { ts := ts, tf := tf, mem := mem, action := some .coreDump }
    else
      let frame : SignalFrame :=
        { ucontext := UContext.new tf restoreBlocked, siginfo := sig, tf := tf }
      let mem := { mem with
        frames := fun a => if a = alignedSp then some frame else mem.frames a }
      let restorer := action.restorer.getD ts.proc.defaultRestorer
      let tf := { tf with
        sepc := h,
        regs := { tf.regs with
          sp := alignedSp,
          a0 := sig.signo,
          a1 := alignedSp + frameOffsetSiginfo,
          a2 := alignedSp + frameOffsetUcontext,
          ra := restorer } }
      let addBlocked :=
        if action.flags &&& FLAG_NODEFER == 0
          then (action.mask.add sig.signo).1 else action.mask
      let actions' :=
        if action.flags &&& FLAG_RESETHAND ≠ 0
          then fun i => if i = sig.signo then SignalAction.dflt else ts.proc.actions i
          else ts.proc.actions
      { ts := { ts with
          blocked := ts.blocked.union addBlocked,
          proc := { ts.proc with actions := actions' } },
        tf := tf, mem := mem, action := some .handler }

/-- Result bundle of `check_signals`. -/
structure CheckResult where
  ts : ThreadState
  tf : TrapFrame
  mem : Mem
  outcome : Option (SigInfo × OSAction)

/-- Total number of stored infos in a pending store; bounds the
`check_signals` dequeue loop. -/
def pendingCount (ps : Pending) : Nat :=
  ((List.range 32).filter (fun i => (ps.infos i).isSome)).length
    + ((List.range 33).map (fun i => (ps.queues i).length)).sum

/-- The dequeue loop of `check_signals` (`src/api/thread.rs` lines
173-179), with fuel bounding the number of iterations; the caller
passes more fuel than there are stored signals, so the fuel never runs
out on the states the code reaches. -/
def checkLoop : Nat → ThreadState → TrapFrame → Mem → Sig64 → Sig64 → CheckResult
  | 0, ts, tf, mem, _, _ => ⟨ts, tf, mem, none⟩
  | fuel + 1, ts, tf, mem, mask, restoreBlocked =>
    match threadDequeue ts mask with
    | (ts1, none) => ⟨ts1, tf, mem, none⟩
    | (ts1, some sig) =>
      let action := ts1.proc.actions sig.signo
      let r := handleSignal ts1 tf mem restoreBlocked sig action
      match r.action with
      | some os => ⟨r.ts, r.tf, r.mem, some (sig, os)⟩
      | none => checkLoop fuel r.ts r.tf r.mem mask restoreBlocked

/-- Rust `ThreadSignalManager::check_signals` from `src/api/thread.rs`
lines 153-180. -/
def checkSignals (ts : ThreadState) (tf : TrapFrame) (mem : Mem)
    (restoreBlocked : Option Sig64) : CheckResult :=
  if ts.possiblyHasSignal = false ∧ ts.proc.possiblyHasSignal = false then
    ⟨ts, tf, mem, none⟩
  else
    let blocked := ts.blocked
    let mask := blocked.compl
    let rb := restoreBlocked.getD blocked
    checkLoop (pendingCount ts.pending + pendingCount ts.proc.pending + 1)
      ts tf mem mask rb

/-- Rust `ThreadSignalManager::restore` from `src/api/thread.rs` lines
183-193: read the `SignalFrame` at `tf.sp`, copy its saved trap frame
back, apply `mcontext.restore`, restore the blocked mask, set the
hint.  `none` models a read of unmapped memory. -/
def restoreW (ts : ThreadState) (tf : TrapFrame) (mem : Mem) :
    Option (ThreadState × TrapFrame) :=
  match mem.frames tf.regs.sp with
  | none => none
  | some frame =>
    let tf := frame.tf
    let tf := frame.ucontext.mcontext.restore tf
    some ({ ts with blocked := frame.ucontext.sigmask, possiblyHasSignal := true },
      tf)

/-- The width of the stack pop performed by user space before
`sigreturn`: on riscv the return address is written to `ra`
(`tf.set_ra`), nothing is pushed, so the width is 0. -/
def sigreturnPopWidth : Nat := 0

end Api

namespace Old

/-- Rust `LinuxError` values produced by the conversion. -/
inductive LinuxError where
  | einval
deriving DecidableEq

/-- Rust `k_sigaction` from `src/ctypes.rs` lines 108-116: raw handler
pointer (`none` = null = `SIG_DFL`), raw flags word, optional restorer
pointer, mask. -/
structure KSigaction where
  handler : Option Nat
  flags : Nat
  restorer : Option Nat
  mask : SignalSet
deriving DecidableEq

/-- Rust `SignalDisposition` from `src/ctypes.rs` lines 118-127. -/
inductive SignalDisposition where
  | dfl
  | ign
  | handler (f : Nat)
deriving DecidableEq

/-- Rust `SignalAction` from `src/ctypes.rs` lines 129-136. -/
structure SignalAction where
  flags : Nat
  mask : SignalSet
  disposition : SignalDisposition
  restorer : Option Nat
deriving DecidableEq

/-- The union of the `SignalActionFlags` bits known to
`src/ctypes.rs` lines 17-26 (SIGINFO, NODEFER, RESETHAND, RESTART,
RESTORER). -/
def knownActionFlags : Nat :=
  Api.FLAG_SIGINFO ||| Api.FLAG_NODEFER ||| Api.FLAG_RESETHAND
    ||| Api.FLAG_RESTART ||| Api.FLAG_RESTORER

/-- Rust `TryFrom<k_sigaction> for SignalAction` from `src/ctypes.rs` lines
156-201.  `SignalActionFlags::from_bits` succeeds iff every set bit is
known; `default_restorer` is the transmuted `SIGNAL_TRAMPOLINE`
address. -/
def sigactionTryFrom (defaultRestorer : Option Nat) (v : KSigaction) :
    Except LinuxError SignalAction :=
  if v.flags &&& knownActionFlags = v.flags then
    let disposition : SignalDisposition :=
      match v.handler with
      | none => .dfl
      | some h => if h = 1 then .ign else .handler h
    let restorer :=
      if v.flags &&& Api.FLAG_RESTORER ≠ 0
        then v.restorer.orElse (fun _ => defaultRestorer)
        else defaultRestorer
    .ok { flags := v.flags, mask := v.mask, disposition := disposition,
          restorer := restorer }
  else .error .einval

end Old

/-- C1: after a successful `send_signal` of the real-time signal 33
(`SIGRT1`) on a fresh store, the call reports success and the info is
queued, yet the pending bit for 33 is *not* set (the pending set is
still empty: `SignalSet::add` rejects signos ≥ 32) and the store can
never yield the info (`dequeue_signal` under the all-ones mask returns
`None`).  This contradicts the claim's "after a successful put of a
real-time signal its bit is set while its queue is non-empty" and the
repository's own test `tests/pending.rs::realtime_signal`. -/
theorem C1_realtime_put_leaves_bit_clear :
    (Old.PendingSignals.empty.sendSignal ⟨33, 0⟩).2 = true ∧
    (Old.PendingSignals.empty.sendSignal ⟨33, 0⟩).1.infoQueues 1 = [⟨33, 0⟩] ∧
    (Old.PendingSignals.empty.sendSignal ⟨33, 0⟩).1.pending.has 33 = false ∧
    (Old.PendingSignals.empty.sendSignal ⟨33, 0⟩).1.pending = Old.SignalSet.empty ∧
    ((Old.PendingSignals.empty.sendSignal ⟨33, 0⟩).1.dequeueSignal
        Old.SignalSet.full).2 = none := by
  decide

/-- C2: two successful puts of real-time signal 33 with distinct
payloads, then a dequeue under the all-ones mask: the claim (and
`tests/pending.rs::realtime_signal`) demand the first payload back in
FIFO order, but the code returns `None` — the pending bit was never
set, so the queued infos are unreachable. -/
theorem C2_realtime_fifo_unreachable :
    ((Old.PendingSignals.empty.sendSignal ⟨33, 1⟩).1.sendSignal ⟨33, 2⟩).2 = true ∧
    ((Old.PendingSignals.empty.sendSignal ⟨33, 1⟩).1.sendSignal ⟨33, 2⟩).1.infoQueues 1
      = [⟨33, 1⟩, ⟨33, 2⟩] ∧
    (((Old.PendingSignals.empty.sendSignal ⟨33, 1⟩).1.sendSignal ⟨33, 2⟩).1.dequeueSignal
        Old.SignalSet.full).2 = none := by
  decide

/-- C3 counterexample: `send_signal` of real-time signal 33 on a fresh
store returns `true` although no new signo bit was added to the pending
set — refuting "returns true iff a new signo bit was added". -/
theorem C3_counterexample_rt_true_without_bit :
    (Old.PendingSignals.empty.sendSignal ⟨33, 0⟩).2 = true ∧
    (Old.PendingSignals.empty.sendSignal ⟨33, 0⟩).1.pending = Old.SignalSet.empty := by
  decide

/-- C3 (amended): `send_signal` returns `true` iff the signo is
real-time (≥ 32, always enqueued, no bit ever added) or a new standard
signo bit (1..31) was added; a second put of the same standard signo is
a no-op returning `false` (the first retained info wins); every put of
a real-time signo appends its info to that signo's queue and leaves the
pending set unchanged. -/
theorem C3_put_signal_result (ps : Old.PendingSignals) (sig : Old.SignalInfo) :
    ((ps.sendSignal sig).2 = true ↔
      (32 ≤ sig.signo ∨
        (1 ≤ sig.signo ∧ sig.signo < 32 ∧ ps.pending.has sig.signo = false))) ∧
    (sig.signo < 32 → ps.pending.has sig.signo = true → ps.sendSignal sig = (ps, false)) ∧
    (32 ≤ sig.signo →
      (ps.sendSignal sig).1.infoQueues (sig.signo - 32)
          = ps.infoQueues (sig.signo - 32) ++ [sig] ∧
      (ps.sendSignal sig).1.pending = ps.pending) := by
  unfold Old.PendingSignals.sendSignal Old.SignalSet.add Old.SignalSet.has
  rcases ps with ⟨⟨b0, b1⟩, infos, queues⟩
  rcases sig with ⟨n, c⟩
  simp only
  by_cases h32 : n < 32
  · by_cases h1 : 1 ≤ n
    · by_cases hbit : b0 &&& (1 <<< (n - 1)) ≠ 0
      · simp [h32, h1, hbit, Nat.not_le.mpr h32, Nat.not_lt.mpr h1]
      · simp only [ne_eq, not_not] at hbit
        simp [h32, h1, hbit, Nat.not_le.mpr h32, Nat.not_lt.mpr h1]
    · have hn : n = 0 := by omega
      simp [hn]
  · have h32' : 32 ≤ n := Nat.not_lt.mp h32
    simp [h32, h32', Nat.not_lt.mpr h32']

/-- Witness for `C3_put_signal_result` at a concrete input. -/
theorem C3_put_signal_result_witness :
    (Old.PendingSignals.empty.sendSignal ⟨33, 0⟩).2 = true :=
  (C3_put_signal_result Old.PendingSignals.empty ⟨33, 0⟩).1.mpr (Or.inl (by decide))

/-! Concrete fixtures shared by witnesses and counterexamples. -/

/-- A fresh process manager state: empty pending store, all-default
action table, no children, clear hint. -/
def sampleProc : Api.ProcState :=
  { pending := Api.Pending.empty, actions := fun _ => Api.SignalAction.dflt,
    defaultRestorer := 0x9000, children := [], possiblyHasSignal := false,
    events := 0, lastStopSignal := none }

/-- A fresh thread manager state over `sampleProc`. -/
def sampleThread : Api.ThreadState :=
  { proc := sampleProc, pending := Api.Pending.empty,
    blocked := Api.Sig64.empty, stack := SignalStack.dflt,
    possiblyHasSignal := false }

/-- A sample interrupted user trap frame. -/
def sampleTf : TrapFrame :=
  { regs := { ra := 1, sp := 0x8000, a0 := 2, a1 := 3, a2 := 4, rest := 5 },
    sepc := 0x400, sstatus := 0x77 }

/-- User memory accepting every frame write. -/
def memAllWritable : Api.Mem :=
  { writable := fun _ => true, frames := fun _ => none }

/-- User memory rejecting every frame write. -/
def memNoneWritable : Api.Mem :=
  { writable := fun _ => false, frames := fun _ => none }

/-- An action installing a user handler at address 0x1234. -/
def handlerAction : Api.SignalAction :=
  { flags := 0, mask := Api.Sig64.empty, disposition := .handler 0x1234,
    restorer := none }

/-- A thread with SIGTERM (15) pending, its action set to
`handlerAction`, nothing blocked, hint set. -/
def coreDumpThread : Api.ThreadState :=
  { proc := { sampleProc with
      actions := fun i => if i = 15 then handlerAction else Api.SignalAction.dflt },
    pending := { set := ⟨1 <<< 14⟩,
                 infos := fun i => if i = 15 then some ⟨15, 0⟩ else none,
                 queues := fun _ => [] },
    blocked := Api.Sig64.empty, stack := SignalStack.dflt,
    possiblyHasSignal := true }

/-- C10: `set_stop_signal s` then `set_cont_signal` with no consumption
in between: `peek_pending_stop_event` returns `None` (the last-stop
cell was cleared) although the `PENDING_STOP_EVENT` flag is still set,
and a later `consume_stop_event` still clears that flag. -/
theorem C10_cont_clears_stop_cell_not_flag (p : Api.ProcState) (s : Nat) :
    Api.peekPendingStopEvent (Api.setContSignal (Api.setStopSignal p s)) = none ∧
    (Api.setContSignal (Api.setStopSignal p s)).events &&& Api.PENDING_STOP_EVENT ≠ 0 ∧
    (Api.consumeStopEvent (Api.setContSignal (Api.setStopSignal p s))).events
        &&& Api.PENDING_STOP_EVENT = 0 := by
  have hbit : ((p.events ||| Api.PENDING_STOP_EVENT) ||| Api.PENDING_CONT_EVENT)
      &&& Api.PENDING_STOP_EVENT ≠ 0 := by
    have h0 : ((p.events ||| Api.PENDING_STOP_EVENT) ||| Api.PENDING_CONT_EVENT).testBit 0
        = true := by
      simp [Nat.testBit_lor, Api.PENDING_STOP_EVENT]
    have h1 := Nat.and_two_pow
      ((p.events ||| Api.PENDING_STOP_EVENT) ||| Api.PENDING_CONT_EVENT) 0
    rw [h0] at h1
    simp only [pow_zero, mul_one, Bool.toNat_true] at h1
    simp [Api.PENDING_STOP_EVENT, h1]
  refine ⟨?_, ?_, ?_⟩
  · simp [Api.peekPendingStopEvent, Api.setContSignal, Api.setStopSignal]
  · simpa [Api.setContSignal, Api.setStopSignal] using hbit
  · show _ &&& _ &&& _ = 0
    rw [Nat.land_assoc]
    simp [Api.PENDING_STOP_EVENT]

/-- C9: `handle_signal` with a `Default` or `Ignore` disposition leaves
the whole thread state (blocked mask, both pending stores, the action
table), the trap frame and user memory unchanged; only a `Handler`
disposition mutates them. -/
theorem C9_default_ignore_pure (ts : Api.ThreadState) (tf : TrapFrame)
    (mem : Api.Mem) (rb : Api.Sig64) (sig : Api.SigInfo)
    (action : Api.SignalAction) (h : ∀ f, action.disposition ≠ .handler f) :
    (Api.handleSignal ts tf mem rb sig action).ts = ts ∧
    (Api.handleSignal ts tf mem rb sig action).tf = tf ∧
    (Api.handleSignal ts tf mem rb sig action).mem = mem := by
  cases hd : action.disposition with
  | dfl => simp [Api.handleSignal, hd]
  | ign => simp [Api.handleSignal, hd]
  | handler f => exact absurd hd (h f)

/-- Witness for `C9_default_ignore_pure`: the default action at a
concrete state. -/
theorem C9_default_ignore_pure_witness :
    (Api.handleSignal sampleThread sampleTf memAllWritable Api.Sig64.empty
        ⟨15, 0⟩ Api.SignalAction.dflt).ts = sampleThread :=
  (C9_default_ignore_pure sampleThread sampleTf memAllWritable Api.Sig64.empty
    ⟨15, 0⟩ Api.SignalAction.dflt (fun _ h => by cases h)).1

/-- C6: conversion of a `k_sigaction` fails with `EINVAL` iff its flags
word contains a bit outside the known flag set; on success, with the
`RESTORER` flag clear the restorer is the process-default trampoline,
and with it set the user-supplied restorer is used when non-null, else
the default.  (The conversion is a pure function with no access to the
in-kernel action table, so a failed conversion cannot modify it.) -/
theorem C6_sigaction_tryfrom (dr : Option Nat) (v : Old.KSigaction) :
    (Old.sigactionTryFrom dr v = .error .einval ↔
      v.flags &&& Old.knownActionFlags ≠ v.flags) ∧
    (∀ a, Old.sigactionTryFrom dr v = .ok a →
      (v.flags &&& Api.FLAG_RESTORER = 0 → a.restorer = dr) ∧
      (v.flags &&& Api.FLAG_RESTORER ≠ 0 →
        a.restorer = v.restorer.orElse (fun _ => dr))) := by
  by_cases hf : v.flags &&& Old.knownActionFlags = v.flags
  · constructor
    · simp [Old.sigactionTryFrom, hf]
    · intro a ha
      rw [Old.sigactionTryFrom, if_pos hf] at ha
      cases ha
      by_cases hr : v.flags &&& Api.FLAG_RESTORER = 0
      · simp [hr]
      · simp [hr]
  · constructor
    · simp [Old.sigactionTryFrom, hf]
    · intro a ha
      rw [Old.sigactionTryFrom, if_neg hf] at ha
      cases ha

/-- Witness for `C6_sigaction_tryfrom`: an unknown flag bit (0x1) is
rejected with `EINVAL`. -/
theorem C6_sigaction_tryfrom_witness :
    Old.sigactionTryFrom none ⟨none, 0x1, none, Old.SignalSet.empty⟩
      = .error .einval :=
  (C6_sigaction_tryfrom none ⟨none, 0x1, none, Old.SignalSet.empty⟩).1.mpr
    (by decide)

/-- The `retain` scan of `send_signal` keeps exactly the live entries
and reports the first registered live thread not blocking the signo. -/
theorem retainScan_eq (l : List (Nat × Option Api.Sig64)) (signo : Nat) :
    Api.retainScan l signo
      = (l.filter (fun c => c.2.isSome), Api.firstAwake l signo) := by
  induction l with
  | nil => rfl
  | cons hd rest ih =>
    obtain ⟨tid, b⟩ := hd
    cases b with
    | none => simpa [Api.retainScan, Api.firstAwake] using ih
    | some blocked =>
      simp [Api.retainScan, Api.firstAwake, ih]

/-- Rust `put_signal` reports no new bit only for a duplicate standard
signal, so the pending set was already non-empty. -/
theorem putSignal_false_nonempty (ps : Api.Pending) (sig : Api.SigInfo)
    (h : (ps.putSignal sig).2 = false) : ps.set.isEmpty = false := by
  rw [Api.Pending.putSignal] at h
  by_cases h32 : sig.signo < 32
  · rw [if_pos h32] at h
    by_cases hh : ps.set.has sig.signo
    · rw [Api.Sig64.has] at hh
      simp only [Bool.and_eq_true, decide_eq_true_eq, bne_iff_ne] at hh
      have hne : ps.set.bits ≠ 0 := by
        intro h0
        exact hh.2 (by simp [h0, Nat.zero_and])
      simp [Api.Sig64.isEmpty, hne]
    · simp [hh] at h
  · simp [h32] at h

/-- C4 counterexample: a process state with SIGINT (2) already pending
and a single live thread blocking it.  `send_signal(SIGINT)` returns
`None` with the entire state (in particular the pending store)
unchanged, although the signal is *not* ignored (disposition Default,
default action Terminate) — refuting the claim's "discards (returns
None, pending unchanged) iff ... ignored". -/
theorem C4_counterexample_dup_blocked :
    Api.procSendSignal
        { pending := { set := ⟨2⟩,
                       infos := fun i => if i = 2 then some ⟨2, 0⟩ else none,
                       queues := fun _ => [] },
          actions := fun _ => Api.SignalAction.dflt,
          defaultRestorer := 0,
          children := [(5, some ⟨2⟩)],
          possiblyHasSignal := true,
          events := 0, lastStopSignal := none } ⟨2, 7⟩
      = ({ pending := { set := ⟨2⟩,
                        infos := fun i => if i = 2 then some ⟨2, 0⟩ else none,
                        queues := fun _ => [] },
           actions := fun _ => Api.SignalAction.dflt,
           defaultRestorer := 0,
           children := [(5, some ⟨2⟩)],
           possiblyHasSignal := true,
           events := 0, lastStopSignal := none }, none) ∧
    Api.signalIgnored
        { pending := { set := ⟨2⟩,
                       infos := fun i => if i = 2 then some ⟨2, 0⟩ else none,
                       queues := fun _ => [] },
          actions := fun _ => Api.SignalAction.dflt,
          defaultRestorer := 0,
          children := [(5, some ⟨2⟩)],
          possiblyHasSignal := true,
          events := 0, lastStopSignal := none } 2 = false :=
  ⟨rfl, rfl⟩

/-- C4 (amended): `send_signal` returns `None` with the state unchanged
when the signal is ignored (no side effect and disposition
Ignore/Default-Ignore); otherwise it puts the signal into the process
pending store (a duplicate standard signal is coalesced, its info
discarded), leaves the possibly-has-signal hint set (assuming the hint
invariant: a non-empty pending set implies the hint), prunes every dead
weak entry from the child registry, and returns the tid of the first
registered live thread whose blocked mask does not contain the signo
(`None` if every live thread blocks it — which can coincide with an
unchanged state for a coalesced duplicate, so the converse of the
discard clause fails). -/
theorem C4_send_signal_spec (s : Api.ProcState) (sig : Api.SigInfo)
    (hinv : s.pending.set.isEmpty = false → s.possiblyHasSignal = true) :
    (Api.signalIgnored s sig.signo = true → Api.procSendSignal s sig = (s, none)) ∧
    (Api.signalIgnored s sig.signo = false →
      (Api.procSendSignal s sig).1.pending = (s.pending.putSignal sig).1 ∧
      (Api.procSendSignal s sig).1.possiblyHasSignal = true ∧
      (Api.procSendSignal s sig).1.children
          = s.children.filter (fun c => c.2.isSome) ∧
      (Api.procSendSignal s sig).2 = Api.firstAwake s.children sig.signo) := by
  constructor
  · intro hi
    simp [Api.procSendSignal, hi]
  · intro hi
    have hscan := retainScan_eq s.children sig.signo
    cases hput : (s.pending.putSignal sig).2 with
    | true => simp [Api.procSendSignal, hi, hput, hscan]
    | false =>
      have hne := putSignal_false_nonempty s.pending sig hput
      simp [Api.procSendSignal, hi, hput, hscan, hinv hne]

/-- Witness for `C4_send_signal_spec`: a fresh process with one live
unblocked thread (tid 9); sending SIGTERM (15) wakes it. -/
theorem C4_send_signal_spec_witness :
    (Api.procSendSignal
        { sampleProc with children := [(9, some Api.Sig64.empty)] } ⟨15, 0⟩).2
      = Api.firstAwake [(9, some Api.Sig64.empty)] 15 :=
  ((C4_send_signal_spec
      { sampleProc with children := [(9, some Api.Sig64.empty)] } ⟨15, 0⟩
      (fun h => absurd h (by decide))).2 (by decide)).2.2.2

/-- C8 counterexample: a thread with SIGINT (2) pending and a mask that
hides it.  `dequeue_signal` returns `None` and stores `false` into the
thread's possibly-has-signal hint although the thread pending set still
contains the signal — refuting "the hint is never cleared except when
the corresponding pending set is observed empty". -/
theorem C8_counterexample_masked_clear :
    ((Api.threadDequeue
        { proc := sampleProc,
          pending := { set := ⟨2⟩,
                       infos := fun i => if i = 2 then some ⟨2, 0⟩ else none,
                       queues := fun _ => [] },
          blocked := ⟨2⟩, stack := SignalStack.dflt,
          possiblyHasSignal := true } ⟨0⟩).2 = none) ∧
    ((Api.threadDequeue
        { proc := sampleProc,
          pending := { set := ⟨2⟩,
                       infos := fun i => if i = 2 then some ⟨2, 0⟩ else none,
                       queues := fun _ => [] },
          blocked := ⟨2⟩, stack := SignalStack.dflt,
          possiblyHasSignal := true } ⟨0⟩).1.possiblyHasSignal = false) ∧
    ((Api.threadDequeue
        { proc := sampleProc,
          pending := { set := ⟨2⟩,
                       infos := fun i => if i = 2 then some ⟨2, 0⟩ else none,
                       queues := fun _ => [] },
          blocked := ⟨2⟩, stack := SignalStack.dflt,
          possiblyHasSignal := true } ⟨0⟩).1.pending.set.isEmpty = false) := by
  refine ⟨rfl, rfl, rfl⟩

/-- C8 (amended): the thread-level `dequeue_signal` stores `false` into
the thread hint exactly when the thread store yields nothing under the
given mask (even if masked signals remain pending), and stores `false`
into the process hint when the process store also yields nothing; only
the process manager's own `dequeue_signal` restricts hint clearing to
an observed-empty pending set. -/
theorem C8_hint_clearing (ts : Api.ThreadState) (p : Api.ProcState)
    (mask : Api.Sig64) :
    ((Api.procDequeueSignal p mask).1.possiblyHasSignal = false →
      p.possiblyHasSignal = false ∨
        (Api.procDequeueSignal p mask).1.pending.set.isEmpty = true) ∧
    ((ts.pending.dequeueSignal mask).2.isSome →
      (Api.threadDequeue ts mask).1.possiblyHasSignal = ts.possiblyHasSignal ∧
      (Api.threadDequeue ts mask).1.proc = ts.proc) ∧
    ((ts.pending.dequeueSignal mask).2 = none →
      (Api.threadDequeue ts mask).1.possiblyHasSignal = false) ∧
    ((ts.pending.dequeueSignal mask).2 = none →
      (Api.procDequeueSignal ts.proc mask).2 = none →
      (Api.threadDequeue ts mask).1.proc.possiblyHasSignal = false) := by
  refine ⟨?_, ?_, ?_, ?_⟩
  · intro h
    by_cases he : (p.pending.dequeueSignal mask).1.set.isEmpty = true
    · exact Or.inr (by simp [Api.procDequeueSignal, he])
    · refine Or.inl ?_
      rw [Api.procDequeueSignal] at h
      simpa [he] using h
  · intro h
    rcases hd : ts.pending.dequeueSignal mask with ⟨p1, r1⟩
    rw [hd] at h
    cases r1 with
    | none => simp at h
    | some sig => simp [Api.threadDequeue, hd]
  · intro h
    rcases hd : ts.pending.dequeueSignal mask with ⟨p1, r1⟩
    rw [hd] at h
    simp only at h
    subst h
    rcases hp : Api.procDequeueSignal ts.proc mask with ⟨pr, r2⟩
    cases r2 <;> simp [Api.threadDequeue, hd, hp]
  · intro h h2
    rcases hd : ts.pending.dequeueSignal mask with ⟨p1, r1⟩
    rw [hd] at h
    simp only at h
    subst h
    rcases hp : Api.procDequeueSignal ts.proc mask with ⟨pr, r2⟩
    rw [hp] at h2
    simp only at h2
    subst h2
    simp [Api.threadDequeue, hd, hp]

/-- Witness for `C8_hint_clearing`: at the concrete masked state the
thread hint is cleared. -/
theorem C8_hint_clearing_witness :
    (Api.threadDequeue
        { proc := sampleProc,
          pending := { set := ⟨2⟩,
                       infos := fun i => if i = 2 then some ⟨2, 0⟩ else none,
                       queues := fun _ => [] },
          blocked := ⟨2⟩, stack := SignalStack.dflt,
          possiblyHasSignal := true } ⟨0⟩).1.possiblyHasSignal = false :=
  (C8_hint_clearing
      { proc := sampleProc,
        pending := { set := ⟨2⟩,
                     infos := fun i => if i = 2 then some ⟨2, 0⟩ else none,
                     queues := fun _ => [] },
        blocked := ⟨2⟩, stack := SignalStack.dflt,
        possiblyHasSignal := true } sampleProc ⟨0⟩).2.2.1 (by decide)

/-- C5: for a user `Handler` disposition with a successful frame write,
`handle_signal` enters the handler; advancing the stack pointer by the
sigreturn pop width (0 on riscv) and running `restore` yields a trap
frame whose instruction pointer and stack pointer equal the original
ones (indeed the whole frame); and `mcontext.restore` overwrites only
the general-purpose registers and the instruction pointer, leaving the
other trap-frame fields intact. -/
theorem C5_handler_restore_roundtrip (ts : Api.ThreadState) (tf : TrapFrame)
    (mem : Api.Mem) (rb : Api.Sig64) (sig : Api.SigInfo)
    (action : Api.SignalAction) (f : Nat)
    (hd : action.disposition = .handler f)
    (hw : mem.writable (Api.alignedSpOf ts.stack action tf) = true) :
    ((Api.handleSignal ts tf mem rb sig action).action = some .handler) ∧
    (∃ ts2 tf2,
      Api.restoreW (Api.handleSignal ts tf mem rb sig action).ts
          { (Api.handleSignal ts tf mem rb sig action).tf with
            regs := { (Api.handleSignal ts tf mem rb sig action).tf.regs with
              sp := (Api.handleSignal ts tf mem rb sig action).tf.regs.sp
                + Api.sigreturnPopWidth } }
          (Api.handleSignal ts tf mem rb sig action).mem
        = some (ts2, tf2) ∧
      tf2.sepc = tf.sepc ∧ tf2.regs.sp = tf.regs.sp ∧ tf2 = tf ∧
      ts2.blocked = rb) ∧
    (∀ (m : MContext) (tf0 : TrapFrame),
      (m.restore tf0).sepc = m.pc ∧ (m.restore tf0).regs = m.regs ∧
      (m.restore tf0).sstatus = tf0.sstatus) := by
  rcases action with ⟨aflags, amask, adisp, arestorer⟩
  simp only at hd
  subst hd
  refine ⟨?_, ?_, fun m tf0 => ⟨rfl, rfl, rfl⟩⟩
  · simp [Api.handleSignal, hw]
  · refine ⟨{ (Api.handleSignal ts tf mem rb sig
        { flags := aflags, mask := amask, disposition := .handler f,
          restorer := arestorer }).ts with
        blocked := rb, possiblyHasSignal := true }, tf, ?_, rfl, rfl, rfl, rfl⟩
    simp [Api.handleSignal, hw, Api.restoreW, Api.sigreturnPopWidth,
      MContext.restore, MContext.new, UContext.new]

/-- Witness for `C5_handler_restore_roundtrip` at concrete fixtures. -/
theorem C5_handler_restore_roundtrip_witness :
    (Api.handleSignal sampleThread sampleTf memAllWritable Api.Sig64.empty
        ⟨15, 0⟩ handlerAction).action = some .handler :=
  (C5_handler_restore_roundtrip sampleThread sampleTf memAllWritable
    Api.Sig64.empty ⟨15, 0⟩ handlerAction 0x1234 rfl (by decide)).1

/-- C7: when the dequeued signal's action is a user `Handler` and the
frame write to user memory faults, `handle_signal` returns the
`CoreDump` OS action (touching nothing), and `check_signals` returns
it with the signal already dequeued from the pending store (the
resulting state is exactly the post-dequeue state). -/
theorem C7_write_fault_coredump (ts : Api.ThreadState) (tf : TrapFrame)
    (mem : Api.Mem) (sig : Api.SigInfo) (f : Nat) (rb : Api.Sig64)
    (h1 : ts.possiblyHasSignal = true)
    (h2 : (Api.threadDequeue ts ts.blocked.compl).2 = some sig)
    (h3 : ((Api.threadDequeue ts ts.blocked.compl).1.proc.actions
        sig.signo).disposition = .handler f)
    (h4 : mem.writable (Api.alignedSpOf
        (Api.threadDequeue ts ts.blocked.compl).1.stack
        ((Api.threadDequeue ts ts.blocked.compl).1.proc.actions sig.signo) tf)
      = false) :
    (Api.handleSignal (Api.threadDequeue ts ts.blocked.compl).1 tf mem rb sig
        ((Api.threadDequeue ts ts.blocked.compl).1.proc.actions sig.signo)
      = ⟨(Api.threadDequeue ts ts.blocked.compl).1, tf, mem, some .coreDump⟩) ∧
    Api.checkSignals ts tf mem none
      = ⟨(Api.threadDequeue ts ts.blocked.compl).1, tf, mem,
          some (sig, .coreDump)⟩ := by
  rcases hdq : Api.threadDequeue ts ts.blocked.compl with ⟨ts1, r⟩
  rw [hdq] at h2 h3 h4
  simp only at h2 h3 h4 ⊢
  subst h2
  have hhandle : ∀ rbx : Api.Sig64,
      Api.handleSignal ts1 tf mem rbx sig (ts1.proc.actions sig.signo)
        = ⟨ts1, tf, mem, some .coreDump⟩ := by
    intro rbx
    rcases hA : ts1.proc.actions sig.signo with ⟨af, am, ad, ar⟩
    rw [hA] at h3 h4
    simp only at h3
    subst h3
    simp [Api.handleSignal, h4]
  refine ⟨hhandle rb, ?_⟩
  rw [Api.checkSignals]
  rw [if_neg (by simp [h1])]
  simp only [Api.checkLoop, hdq, hhandle]

/-- Witness for `C7_write_fault_coredump`: at the concrete fixtures,
`check_signals` core-dumps with SIGTERM already dequeued. -/
theorem C7_write_fault_coredump_witness :
    Api.checkSignals coreDumpThread sampleTf memNoneWritable none
      = ⟨(Api.threadDequeue coreDumpThread coreDumpThread.blocked.compl).1,
          sampleTf, memNoneWritable, some (⟨15, 0⟩, .coreDump)⟩ :=
  (C7_write_fault_coredump coreDumpThread sampleTf memNoneWritable ⟨15, 0⟩
    0x1234 Api.Sig64.empty rfl (by decide) (by decide) (by decide)).2

end StarrySignal
